import Mathlib

/-!
Verification of the admin layer of django-reviews (src/reviews/admin.py)
over a shallow embedding.  The model of a record type, the content-type
registry and the Review record come from the specification, since
reviews/models.py and reviews/utils.py are not part of the sources; all
operations (link renderers, reviewable-type enumerator, list filter,
admin registration) are translated from src/reviews/admin.py.
-/

/-- A content-type registry entry: maps a model class to an application
label, a model identifier and a human-readable name (glossary: the type
registry maps a model class to an identifier and human label). -/
structure ContentType where
  app_label : String
  model : String
  name : String
deriving DecidableEq, Repr

/-- Modelled from the spec: a record type known to the framework, carrying
its content-type registry entry and whether it implements the Reviewable
capability ("a capability/marker that any record type can acquire to
become a valid review target"); reviews/models.py is not in the sources. -/
structure ModelClass where
  ct : ContentType
  reviewable : Bool
deriving DecidableEq, Repr

/-- Modelled from the spec: the state of the external content-addressed
type registry, i.e. the list of record types it currently knows, in the
order it returns them. -/
structure RegistryState where
  classes : List ModelClass
deriving DecidableEq, Repr

/-- ContentType.objects.get_for_model: look up the registry entry of a
model class. -/
def get_for_model (klass : ModelClass) : ContentType :=
  klass.ct

/-- Modelled from the spec: get_reviewable_model_classes (imported from
reviews/utils.py, which is not in the sources) produces "the list of
distinct record types that currently implement the Reviewable capability
... sorted however the underlying type registry returns them". -/
def get_reviewable_model_classes (st : RegistryState) : List ModelClass :=
  st.classes.filter (fun klass => klass.reviewable)

/-- Python str.title() on ASCII text: the first character of every run of
alphabetic characters is uppercased, the rest of the run is lowercased;
non-alphabetic characters pass through and end the run. -/
def pyTitleGo : List Char → Bool → List Char
  | [], _ => []
  | c :: rest, prevCased =>
      let cased := c.isAlpha
      let d := if cased then (if prevCased then c.toLower else c.toUpper) else c
      d :: pyTitleGo rest cased

/-- Python str.title() on an ASCII string. -/
def pyTitle (s : String) : String :=
  String.mk (pyTitleGo s.data false)

/-- The single-quote character, used by the anchor markup in
reviews/admin.py. -/
def squo : String :=
  String.singleton (Char.ofNat 39)

/-- "<a href='%s'>%s</a>" % (url, label): the anchor markup both link
renderers in reviews/admin.py produce. -/
def anchor (url label : String) : String :=
  "<a href=" ++ squo ++ url ++ squo ++ ">" ++ label ++ "</a>"

/-- The record a Review's polymorphic reference resolves to: its primary
key and its string form (what "%s" renders). -/
structure ReviewedObject where
  id : Nat
  str : String
deriving DecidableEq, Repr

/-- Modelled from the spec: a Review record ("a record referencing
(reviewed-type, reviewed-record-id, reviewing-user, numeric score,
free-text comment, boolean approved-flag, boolean anonymous-flag, created
timestamp, updated flag)"); reviews/models.py is not in the sources.  The
polymorphic reference is represented by its content type together with
the record it resolves to, `none` when the reference is dangling. -/
structure Review where
  content_type : ContentType
  reviewed_object : Option ReviewedObject
  user : String
  score : Nat
  comment : String
  comment_approved : Bool
  anonymous : Bool
  created : Nat
  is_updated : Bool
deriving DecidableEq, Repr

/-- Failures of the framework facilities the renderers rely on: a route
that cannot be reversed (NoReverseMatch) and a dangling polymorphic
reference. -/
inductive AdminError where
  | noReverseMatch (route : String)
  | danglingReference
deriving DecidableEq, Repr

/-- The route name reviewed_model_linked reverses:
admin:{app_label}_{model_name}_changelist. -/
def changelistRoute (obj : Review) : String :=
  "admin:" ++ obj.content_type.app_label ++ "_" ++ obj.content_type.model ++ "_changelist"

/-- The route name reviewed_object_linked reverses:
admin:{app_label}_{model_name}_change. -/
def changeRoute (obj : Review) : String :=
  "admin:" ++ obj.content_type.app_label ++ "_" ++ obj.content_type.model ++ "_change"

/-- The URL-reversal facility: given a route name and positional
arguments, return the URL, or `none` when no route matches (in which case
the framework raises NoReverseMatch). -/
def Reverser : Type :=
  String → List Nat → Option String

/-- reviewed_model_linked: reverse the changelist route of the Review's
content type and wrap it in an anchor labelled with the title-cased
content-type name.  Any failure of the reversal facility propagates. -/
def reviewed_model_linked (rv : Reverser) (obj : Review) : Except AdminError String :=
  match rv (changelistRoute obj) [] with
  | none => Except.error (AdminError.noReverseMatch (changelistRoute obj))
  | some url => Except.ok (anchor url (pyTitle obj.content_type.name))

/-- reviewed_object_linked: resolve the reviewed object (its id is passed
to the reversal facility, so a dangling reference fails first), reverse
the change route with that id, and wrap the URL in an anchor labelled
with the record's string form.  Any failure propagates. -/
def reviewed_object_linked (rv : Reverser) (obj : Review) : Except AdminError String :=
  match obj.reviewed_object with
  | none => Except.error AdminError.danglingReference
  | some ro =>
      match rv (changeRoute obj) [ro.id] with
      | none => Except.error (AdminError.noReverseMatch (changeRoute obj))
      | some url => Except.ok (anchor url ro.str)

/-- The loop body of get_reviewable_models: for each class append the
pair (name, name.title()) of its registry entry to the accumulator. -/
def build_reviewable_models (model_classes : List ModelClass) : List (String × String) :=
  model_classes.foldl
    (fun acc klass =>
      acc ++ [((get_for_model klass).name, pyTitle (get_for_model klass).name)])
    []

/-- get_reviewable_models: "Generate list of tuple pairs for custom
filter", one (name, title-cased name) pair per reviewable model class. -/
def get_reviewable_models (st : RegistryState) : List (String × String) :=
  build_reviewable_models (get_reviewable_model_classes st)

/-- ReviewedModelListFilter.lookups: no choices when fewer than two
reviewable models exist, otherwise one choice per reviewable model. -/
def ReviewedModelListFilter.lookups (st : RegistryState) : Option (List (String × String)) :=
  if (get_reviewable_models st).length < 2 then
    none
  else
    some (get_reviewable_models st)

/-- ReviewedModelListFilter.queryset: when a value is selected, filter the
queryset to the Reviews whose content-type name equals it; when no value
is selected the method falls through and returns None. -/
def ReviewedModelListFilter.queryset (value : Option String) (qs : List Review) :
    Option (List Review) :=
  match value with
  | some v => some (qs.filter (fun r => r.content_type.name == v))
  | none => none

/-- The admin changelist applies a list filter by keeping the original
queryset whenever the filter's queryset method returns None. -/
def applyListFilter (value : Option String) (qs : List Review) : List Review :=
  match ReviewedModelListFilter.queryset value qs with
  | some result => result
  | none => qs

/-- The columns and fields ReviewAdmin refers to: the two rendered link
columns and the Review model's own fields. -/
inductive AdminField where
  | id
  | reviewed_model_linked
  | reviewed_object_linked
  | user
  | score
  | comment
  | comment_approved
  | created
  | is_updated
  | anonymous
deriving DecidableEq, Repr

/-- ReviewAdmin.list_display. -/
def ReviewAdmin.list_display : List AdminField :=
  [AdminField.id, AdminField.reviewed_model_linked, AdminField.reviewed_object_linked,
   AdminField.user, AdminField.score, AdminField.comment, AdminField.comment_approved]

/-- ReviewAdmin.readonly_fields. -/
def ReviewAdmin.readonly_fields : List AdminField :=
  [AdminField.reviewed_model_linked, AdminField.reviewed_object_linked,
   AdminField.user, AdminField.score, AdminField.created, AdminField.is_updated]

/-- ReviewAdmin.fields = readonly_fields + [comment, anonymous,
comment_approved]. -/
def ReviewAdmin.fields : List AdminField :=
  ReviewAdmin.readonly_fields ++
    [AdminField.comment, AdminField.anonymous, AdminField.comment_approved]

/- Concrete registry entries and reviews used by the witnesses. -/

/-- A sample content type for a product model. -/
def ctProduct : ContentType :=
  { app_label := "tests", model := "product", name := "product" }

/-- A sample content type for a seller model. -/
def ctSeller : ContentType :=
  { app_label := "shop", model := "seller", name := "seller" }

/-- A sample reviewable product class. -/
def mcProduct : ModelClass :=
  { ct := ctProduct, reviewable := true }

/-- A sample reviewable seller class. -/
def mcSeller : ModelClass :=
  { ct := ctSeller, reviewable := true }

/-- A sample non-reviewable class. -/
def mcPlain : ModelClass :=
  { ct := { app_label := "auth", model := "user", name := "user" }, reviewable := false }

/-- A registry holding two reviewable classes and one non-reviewable one. -/
def stTwo : RegistryState :=
  { classes := [mcProduct, mcSeller, mcPlain] }

/-- A registry holding exactly one reviewable class. -/
def stOne : RegistryState :=
  { classes := [mcProduct, mcPlain] }

/-- A sample review of a product that resolves to an existing record. -/
def revOk : Review :=
  { content_type := ctProduct
    reviewed_object := some { id := 7, str := "Blue Widget" }
    user := "alice"
    score := 4
    comment := "fine"
    comment_approved := true
    anonymous := false
    created := 100
    is_updated := false }

/-- A sample review whose polymorphic reference is dangling. -/
def revDangling : Review :=
  { content_type := ctSeller
    reviewed_object := none
    user := "bob"
    score := 1
    comment := "bad"
    comment_approved := false
    anonymous := true
    created := 200
    is_updated := true }

/-- A reversal facility that knows the routes of the sample registry. -/
def rvSample : Reverser :=
  fun route args =>
    if route = "admin:tests_product_changelist" then
      some "/admin/tests/product/"
    else if route = "admin:tests_product_change" then
      some ("/admin/tests/product/" ++ String.intercalate "/" (args.map toString) ++ "/")
    else
      none

/-- Helper: folding the append-one-pair loop body from any accumulator is
the accumulator followed by the mapped list. -/
theorem build_reviewable_models_foldl (f : ModelClass → String × String)
    (cs : List ModelClass) (acc : List (String × String)) :
    cs.foldl (fun a k => a ++ [f k]) acc = acc ++ cs.map f := by
  induction cs generalizing acc with
  | nil => simp
  | cons k rest ih => simp [List.foldl_cons, ih]

/-- Helper: the loop in get_reviewable_models is the map sending a class
to the (name, title-cased name) pair of its registry entry. -/
theorem build_reviewable_models_eq_map (cs : List ModelClass) :
    build_reviewable_models cs =
      cs.map (fun klass => ((get_for_model klass).name, pyTitle (get_for_model klass).name)) := by
  simpa using build_reviewable_models_foldl
    (fun klass => ((get_for_model klass).name, pyTitle (get_for_model klass).name)) cs []

/-- Substring containment: t occurs contiguously inside s. -/
def strContains (s t : String) : Prop :=
  ∃ a b, s = a ++ (t ++ b)

/-- Helper: string append is associative. -/
theorem string_append_assoc (a b c : String) : a ++ b ++ c = a ++ (b ++ c) := by
  cases a with
  | mk da =>
    cases b with
    | mk db =>
      cases c with
      | mk dc =>
        show String.mk (da ++ db ++ dc) = String.mk (da ++ (db ++ dc))
        rw [List.append_assoc]

/-- Helper: the anchor markup contains its URL and its label as
substrings. -/
theorem anchor_contains (url label : String) :
    strContains (anchor url label) url ∧ strContains (anchor url label) label := by
  constructor
  · refine ⟨"<a href=" ++ squo, squo ++ ">" ++ label ++ "</a>", ?_⟩
    simp only [anchor, string_append_assoc]
  · refine ⟨"<a href=" ++ squo ++ url ++ squo ++ ">", "</a>", ?_⟩
    simp only [anchor, string_append_assoc]

/-- Claim C1: with a selected value k, ReviewedModelListFilter.queryset
returns exactly the Reviews of the input whose content-type name equals
k: every returned Review is in the input and matches, and every matching
input Review is returned. -/
theorem C1_queryset_filters_by_name (k : String) (qs : List Review) :
    ∃ res, ReviewedModelListFilter.queryset (some k) qs = some res ∧
      applyListFilter (some k) qs = res ∧
      ∀ r, (r ∈ res ↔ r ∈ qs ∧ r.content_type.name = k) := by
  refine ⟨qs.filter (fun r => r.content_type.name == k), rfl, rfl, ?_⟩
  intro r
  simp [List.mem_filter]

/-- Claim C2: when fewer than two registered record types implement the
Reviewable capability, ReviewedModelListFilter.lookups offers no choices,
so the filter is hidden. -/
theorem C2_few_types_hides_filter (st : RegistryState)
    (h : (get_reviewable_model_classes st).length < 2) :
    ReviewedModelListFilter.lookups st = none := by
  have hlen : (get_reviewable_models st).length = (get_reviewable_model_classes st).length := by
    simp [get_reviewable_models, build_reviewable_models_eq_map]
  unfold ReviewedModelListFilter.lookups
  rw [if_pos (by omega)]

/-- Witness for C2 at a registry with a single reviewable class. -/
theorem C2_few_types_hides_filter_witness :
    (get_reviewable_model_classes stOne).length < 2 ∧
      ReviewedModelListFilter.lookups stOne = none :=
  ⟨by decide, C2_few_types_hides_filter stOne (by decide)⟩

/-- Claim C3: with n distinct reviewable types registered, the filter
offers n choices, except that for n = 1 lookups returns no choices at
all. -/
theorem C3_choice_count (st : RegistryState) (n : Nat)
    (_hnd : (get_reviewable_model_classes st).Nodup)
    (hn : n = (get_reviewable_model_classes st).length) :
    (n = 1 → ReviewedModelListFilter.lookups st = none) ∧
      ((ReviewedModelListFilter.lookups st).getD []).length = if n = 1 then 0 else n := by
  have hlen : (get_reviewable_models st).length = (get_reviewable_model_classes st).length := by
    simp [get_reviewable_models, build_reviewable_models_eq_map]
  constructor
  · intro h1
    unfold ReviewedModelListFilter.lookups
    rw [if_pos (by omega)]
  · unfold ReviewedModelListFilter.lookups
    by_cases h : (get_reviewable_models st).length < 2
    · rw [if_pos h]
      have h01 : n = 0 ∨ n = 1 := by omega
      rcases h01 with h0 | h1
      · simp [h0]
      · simp [h1]
    · rw [if_neg h]
      rw [if_neg (by omega)]
      simp only [Option.getD_some]
      omega

/-- Witness for C3 at a registry with two distinct reviewable classes. -/
theorem C3_choice_count_witness :
    (get_reviewable_model_classes stTwo).Nodup ∧
      (2 : Nat) = (get_reviewable_model_classes stTwo).length ∧
      ((2 = 1 → ReviewedModelListFilter.lookups stTwo = none) ∧
        ((ReviewedModelListFilter.lookups stTwo).getD []).length = if 2 = 1 then 0 else 2) :=
  ⟨by decide, by decide, C3_choice_count stTwo 2 (by decide) (by decide)⟩

/-- Claim C4: for a Review whose reference resolves and whose routes
reverse, reviewed_model_linked returns the anchor of the content type's
changelist URL labelled with the title-cased type name, and
reviewed_object_linked returns the anchor of the record's change URL
labelled with the record's string form; each output contains its URL and
its label as substrings. -/
theorem C4_link_renderers (rv : Reverser) (obj : Review) (ro : ReviewedObject)
    (url1 url2 : String)
    (hro : obj.reviewed_object = some ro)
    (h1 : rv (changelistRoute obj) [] = some url1)
    (h2 : rv (changeRoute obj) [ro.id] = some url2) :
    (reviewed_model_linked rv obj = Except.ok (anchor url1 (pyTitle obj.content_type.name)) ∧
      strContains (anchor url1 (pyTitle obj.content_type.name)) url1 ∧
      strContains (anchor url1 (pyTitle obj.content_type.name)) (pyTitle obj.content_type.name)) ∧
    (reviewed_object_linked rv obj = Except.ok (anchor url2 ro.str) ∧
      strContains (anchor url2 ro.str) url2 ∧
      strContains (anchor url2 ro.str) ro.str) := by
  refine ⟨⟨?_, anchor_contains url1 (pyTitle obj.content_type.name)⟩,
    ⟨?_, anchor_contains url2 ro.str⟩⟩
  · unfold reviewed_model_linked
    rw [h1]
  · simp [reviewed_object_linked, hro, h2]

/-- Witness for C4 at a concrete review, record and reversal table. -/
theorem C4_link_renderers_witness :
    revOk.reviewed_object = some { id := 7, str := "Blue Widget" } ∧
      rvSample (changelistRoute revOk) [] = some "/admin/tests/product/" ∧
      rvSample (changeRoute revOk) [7] = some "/admin/tests/product/7/" ∧
      reviewed_model_linked rvSample revOk =
        Except.ok (anchor "/admin/tests/product/" (pyTitle revOk.content_type.name)) ∧
      reviewed_object_linked rvSample revOk =
        Except.ok (anchor "/admin/tests/product/7/" "Blue Widget") :=
  ⟨by decide, by decide, by decide,
    (C4_link_renderers rvSample revOk { id := 7, str := "Blue Widget" }
      "/admin/tests/product/" "/admin/tests/product/7/"
      (by decide) (by decide) (by decide)).1.1,
    (C4_link_renderers rvSample revOk { id := 7, str := "Blue Widget" }
      "/admin/tests/product/" "/admin/tests/product/7/"
      (by decide) (by decide) (by decide)).2.1⟩

/-- The empty registry state. -/
def stEmpty : RegistryState :=
  { classes := [] }

/-- Claim C5: get_reviewable_models returns the (key, display-label)
pairs of exactly the registered types implementing the Reviewable
capability, in registry order, and returns the empty list when the
registry yields no reviewable class. -/
theorem C5_enumerator_pairs (st : RegistryState) :
    get_reviewable_models st =
      (st.classes.filter (fun klass => klass.reviewable)).map
        (fun klass => (klass.ct.name, pyTitle klass.ct.name)) ∧
      (get_reviewable_model_classes st = [] → get_reviewable_models st = []) := by
  constructor
  · rw [get_reviewable_models, build_reviewable_models_eq_map]
    rfl
  · intro h
    rw [get_reviewable_models, h]
    rfl

/-- Witness for C5 at the empty registry. -/
theorem C5_enumerator_pairs_witness :
    get_reviewable_model_classes stEmpty = [] ∧ get_reviewable_models stEmpty = [] :=
  ⟨by decide, (C5_enumerator_pairs stEmpty).2 (by decide)⟩

/-- Claim C6: with no value selected, the filter is a no-op: the queryset
method returns None and the changelist therefore keeps the input queryset
unchanged. -/
theorem C6_no_value_noop (qs : List Review) :
    ReviewedModelListFilter.queryset none qs = none ∧ applyListFilter none qs = qs :=
  ⟨rfl, rfl⟩

/-- Claim C7: the read-only field set of ReviewAdmin is exactly the two
rendered links, user, score, created and is_updated, and the full field
set is exactly that list followed by comment, anonymous and
comment_approved, nothing else. -/
theorem C7_field_sets :
    ReviewAdmin.readonly_fields =
      [AdminField.reviewed_model_linked, AdminField.reviewed_object_linked,
       AdminField.user, AdminField.score, AdminField.created, AdminField.is_updated] ∧
      ReviewAdmin.fields =
        [AdminField.reviewed_model_linked, AdminField.reviewed_object_linked,
         AdminField.user, AdminField.score, AdminField.created, AdminField.is_updated,
         AdminField.comment, AdminField.anonymous, AdminField.comment_approved] :=
  ⟨rfl, rfl⟩

/-- Claim C8: the renderers handle no failure: reviewed_model_linked
yields an error exactly when its route does not reverse, and
reviewed_object_linked yields an error exactly when the reference is
dangling or its route does not reverse; no fallback value is returned in
those cases. -/
theorem C8_errors_propagate (rv : Reverser) (obj : Review) :
    ((∃ e, reviewed_model_linked rv obj = Except.error e) ↔
      rv (changelistRoute obj) [] = none) ∧
    ((∃ e, reviewed_object_linked rv obj = Except.error e) ↔
      (obj.reviewed_object = none ∨
        ∃ ro, obj.reviewed_object = some ro ∧ rv (changeRoute obj) [ro.id] = none)) := by
  constructor
  · unfold reviewed_model_linked
    cases h : rv (changelistRoute obj) [] with
    | none => simp
    | some url => simp
  · unfold reviewed_object_linked
    cases hro : obj.reviewed_object with
    | none => simp
    | some ro =>
      cases h : rv (changeRoute obj) [ro.id] with
      | none => simp [h]
      | some url => simp [h]

/-- Claim C9: lookups returns either no choice list at all or a list of
at least two choices; it never returns an empty or singleton choice
list. -/
theorem C9_lookups_none_or_at_least_two (st : RegistryState) :
    ReviewedModelListFilter.lookups st = none ∨
      ∃ l, ReviewedModelListFilter.lookups st = some l ∧
        2 ≤ l.length ∧ l ≠ [] ∧ l.length ≠ 1 := by
  unfold ReviewedModelListFilter.lookups
  by_cases h : (get_reviewable_models st).length < 2
  · left
    rw [if_pos h]
  · right
    refine ⟨get_reviewable_models st, if_neg h, by omega, ?_, by omega⟩
    intro hnil
    rw [hnil] at h
    exact h (by decide)

/-- Claim C10: the enumerator loop produces exactly one pair per input
class (no deduplication), and in every produced pair the second component
is the title-cased first component. -/
theorem C10_one_pair_per_class (model_classes : List ModelClass) :
    (build_reviewable_models model_classes).length = model_classes.length ∧
      ∀ p, p ∈ build_reviewable_models model_classes → p.2 = pyTitle p.1 := by
  rw [build_reviewable_models_eq_map]
  constructor
  · simp
  · intro p hp
    rw [List.mem_map] at hp
    obtain ⟨klass, hk, hpe⟩ := hp
    rw [← hpe]

/-- Witness for C10 at a duplicated input class. -/
theorem C10_one_pair_per_class_witness :
    (build_reviewable_models [mcProduct, mcProduct]).length = [mcProduct, mcProduct].length ∧
      (("product", "Product") : String × String).2 =
        pyTitle (("product", "Product") : String × String).1 :=
  ⟨(C10_one_pair_per_class [mcProduct, mcProduct]).1,
   (C10_one_pair_per_class [mcProduct, mcProduct]).2 ("product", "Product") (by decide)⟩
